import Mathlib

/-!
Verification development for the ESP32CAM-RTSP-Multi streaming engine.

This file shallowly embeds the RTSP/RTP core of the firmware:

* `generateTimecode` mirrors `TimecodeManager::generateTimecode`
  (src/lib/Utils/TimecodeManager.cpp, lines 115-202) together with its helper
  functions `calculatePTS`, `calculateDTS`, `getWallClockMs`,
  `msToRTPTimestamp` and `getCurrentTimestamp`.  32-bit machine arithmetic is
  embedded as `Nat` arithmetic taken `% U32` wherever the C++ source uses
  `uint32_t` operations.  The wall clock difference `millis() - start_time_ms`
  and the raw clock reference `esp_timer_get_time() / 1000` are environment
  inputs, so they are passed as explicit arguments.
* `processRequest` mirrors `RTSPClientSession::processRequest`
  (src/lib/Nano-RTSP/RTSPClientSession.cpp, lines 190-510).  The Arduino
  `String` scanning performed on the request text is embedded by an
  `RTSPRequest` record whose fields hold the results of exactly the string
  tests the source performs (each field is documented with the test it
  stands for); the branch structure and every state assignment follow the
  source line by line.
* `sendRTPFrame` / `sendRTPFrameTCP` mirror the RTP/JPEG packetizer and its
  UDP retry / TCP-interleaved transports (same file, lines 521-896).  Network
  outcomes (`udp.beginPacket`/`write`/`endPacket` results, `client.write`
  short writes, `client.connected()`) are oracle inputs; the frame source
  (`CameraManager::captureForced`) is an `Option Frame` input, and frame
  buffer captures/releases (`esp_camera_fb_return`) are recorded in an event
  trace so buffer-discipline properties can be stated.
* `acceptNewClients` / `handleClients` mirror `NanoRTSPServer`
  (src/lib/Nano-RTSP/NanoRTSPServer.cpp, lines 22-76).

Configuration constants are taken from src/src/config.h.
-/

namespace ESPRTSP

/-! ## Configuration constants (src/src/config.h) -/

/-- `#define RTSP_FPS 15` (config.h line 82). -/
def RTSP_FPS : Nat := 15

/-- `#define RTSP_CLOCK_RATE 90000` (config.h line 95). -/
def RTSP_CLOCK_RATE : Nat := 90000

/-- `#define RTSP_TIMECODE_MODE 1` (config.h line 89). -/
def RTSP_TIMECODE_MODE : Nat := 1

/-- `#define RTSP_FORCE_INCREASING_TIMECODES 1` (config.h line 129). -/
def RTSP_FORCE_INCREASING_TIMECODES : Bool := true

/-- `#define RTSP_UDP_MAX_RETRIES 2` (config.h line 207). -/
def RTSP_UDP_MAX_RETRIES : Nat := 2

/-- `#define RTSP_UDP_TCP_FALLBACK 1` (config.h line 216). -/
def RTSP_UDP_TCP_FALLBACK : Nat := 1

/-- `#define RTSP_UDP_RESET_THRESHOLD 10` (config.h line 242). -/
def RTSP_UDP_RESET_THRESHOLD : Nat := 10

/-- `#define RTSP_UDP_AUTO_RESET 1` (config.h line 239). -/
def RTSP_UDP_AUTO_RESET : Bool := true

/-- `#define RTSP_MAX_FRAGMENT_SIZE 600` (config.h line 233). -/
def RTSP_MAX_FRAGMENT_SIZE : Nat := 600

/-- `#define DEFAULT_FRAME_TIME 0` (config.h line 351). -/
def DEFAULT_FRAME_TIME : Nat := 0

/-- Maximum UDP payload per fragment:
`MAX_PACKET_SIZE - RTP_HEADER_SIZE - JPEG_HEADER_SIZE = 600 - 12 - 8`
(RTSPClientSession.cpp lines 549-552). -/
def UDP_MAX_PAYLOAD : Nat := RTSP_MAX_FRAGMENT_SIZE - 12 - 8

/-- Maximum TCP-interleaved payload per fragment: `1400 - 12 - 8`
(RTSPClientSession.cpp lines 766-769). -/
def TCP_MAX_PAYLOAD : Nat := 1400 - 12 - 8

/-- Hard-coded session cap: `if (clients.size() >= 5)`
(NanoRTSPServer.cpp line 48). -/
def MAX_RTSP_CLIENTS : Nat := 5

/-- Modulus of `uint32_t` arithmetic. -/
def U32 : Nat := 4294967296

/-- Modulus of `uint16_t` arithmetic. -/
def U16 : Nat := 65536

/-- Modulus of the 24-bit fragment-offset field of the RTP/JPEG header
(RTSPClientSession.cpp lines 602-604 write `offset` into three bytes). -/
def U24 : Nat := 16777216

/-! ## Timecode engine (src/lib/Utils/TimecodeManager.cpp) -/

/-- Mutable state of `TimecodeManager` relevant to timecode generation:
`frame_counter`, `last_frame_timestamp` (both `uint32_t`) and the configured
`timecode_mode`.  The clock fields (`start_time_ms`, `clock_reference`, NTP
sync state) are environment-driven and enter `generateTimecode` as inputs. -/
structure TimecodeState where
  frame_counter : Nat
  last_frame_timestamp : Nat
  timecode_mode : Nat
deriving Repr, DecidableEq

/-- `RTSPTimecode_t` (config.h lines 355-361). -/
structure RTSPTimecode where
  pts : Nat
  dts : Nat
  clock_reference : Nat
  wall_clock : Nat
deriving Repr, DecidableEq

/-- `TimecodeManager::getWallClockMs` (TimecodeManager.cpp lines 218-229):
the `uint32_t` difference `millis() - start_time_ms` is the input `elapsed`;
a zero elapsed time is forced to 1 ms. -/
def getWallClockMs (elapsed : Nat) : Nat :=
  let e := elapsed % U32
  if e = 0 then 1 else e

/-- `TimecodeManager::msToRTPTimestamp` (lines 296-300):
`(ms * RTSP_CLOCK_RATE) / 1000` in `uint32_t` arithmetic. -/
def msToRTPTimestamp (ms : Nat) : Nat :=
  ((ms * RTSP_CLOCK_RATE) % U32) / 1000

/-- `TimecodeManager::getCurrentTimestamp` (lines 204-216). -/
def getCurrentTimestamp (elapsed : Nat) : Nat :=
  let rtp := msToRTPTimestamp (getWallClockMs elapsed)
  if rtp = 0 then RTSP_CLOCK_RATE / RTSP_FPS else rtp

/-- `TimecodeManager::calculatePTS` (lines 267-287):
`pts = frame_number * (RTSP_CLOCK_RATE / RTSP_FPS)` in `uint32_t`,
forced to one frame duration when it is 0 for a positive frame number. -/
def calculatePTS (frame_number : Nat) : Nat :=
  let frame_duration_rtp := RTSP_CLOCK_RATE / RTSP_FPS
  let pts := (frame_number * frame_duration_rtp) % U32
  if pts = 0 ∧ 0 < frame_number then frame_duration_rtp else pts

/-- `TimecodeManager::calculateDTS` (lines 289-294): DTS = PTS for MJPEG. -/
def calculateDTS (frame_number : Nat) : Nat :=
  calculatePTS frame_number

/-- The zero-PTS fixup of `generateTimecode` (lines 166-170). -/
def fixZeroPts (p : Nat) : Nat :=
  if p = 0 then RTSP_CLOCK_RATE / RTSP_FPS else p

/-- The monotonicity forcing of `generateTimecode` (lines 176-182):
when `RTSP_FORCE_INCREASING_TIMECODES` is set and the computed PTS does not
advance past `last_frame_timestamp`, recompute it as
`last_frame_timestamp + RTSP_CLOCK_RATE / RTSP_FPS` in `uint32_t`. -/
def forcePts (last p : Nat) : Nat :=
  if RTSP_FORCE_INCREASING_TIMECODES = true ∧ p ≤ last then
    (last + RTSP_CLOCK_RATE / RTSP_FPS) % U32
  else p

/-- `TimecodeManager::generateTimecode` (lines 115-202).  Inputs:
`elapsed` is the wall-clock difference read by `getWallClockMs`, `clockRef`
the value `esp_timer_get_time() / 1000` stored by `updateClockReference`,
`ntpSynced` the NTP sync flag (mode 2 only).  Returns the produced timecode
and the updated state (`frame_counter` incremented with the zero fixup of
lines 122-126, `last_frame_timestamp := timecode.pts`, line 196). -/
def generateTimecode (s : TimecodeState) (elapsed clockRef : Nat) (ntpSynced : Bool) :
    RTSPTimecode × TimecodeState :=
  let fc0 := (s.frame_counter + 1) % U32
  let fc := if fc0 = 0 then 1 else fc0
  let base : RTSPTimecode :=
    if s.timecode_mode = 0 then
      { pts := getCurrentTimestamp elapsed, dts := getCurrentTimestamp elapsed,
        clock_reference := clockRef % U32, wall_clock := getWallClockMs elapsed }
    else if s.timecode_mode = 1 then
      { pts := calculatePTS fc, dts := calculateDTS fc,
        clock_reference := clockRef % U32, wall_clock := getWallClockMs elapsed }
    else if s.timecode_mode = 2 then
      { pts := calculatePTS fc, dts := calculateDTS fc,
        clock_reference :=
          if ntpSynced = true then (clockRef % U32) ||| 2147483648 else clockRef % U32,
        wall_clock := getWallClockMs elapsed }
    else
      { pts := getCurrentTimestamp elapsed, dts := getCurrentTimestamp elapsed,
        clock_reference := clockRef % U32, wall_clock := getWallClockMs elapsed }
  let pts1 := fixZeroPts base.pts
  let dts1 := if base.dts = 0 then pts1 else base.dts
  let pts2 := forcePts s.last_frame_timestamp pts1
  let dts2 :=
    if RTSP_FORCE_INCREASING_TIMECODES = true ∧ dts1 ≤ s.last_frame_timestamp then pts2
    else dts1
  let dts3 := if pts2 < dts2 then pts2 else dts2
  ({ base with pts := pts2, dts := dts3 },
   { s with frame_counter := fc, last_frame_timestamp := pts2 })

/-- `TimecodeManager` state right after `resetFrameCounter`
(TimecodeManager.cpp lines 322-327) with the configured mode 1; this is also
the constructor state (lines 12-30). -/
def resetTC : TimecodeState :=
  { frame_counter := 0, last_frame_timestamp := 0, timecode_mode := RTSP_TIMECODE_MODE }

/-- One `generateTimecode` call with a fixed environment (elapsed 1 ms,
clock reference 0, no NTP sync), keeping only the state. -/
def stepTC (s : TimecodeState) : TimecodeState :=
  (generateTimecode s 1 0 false).2

/-- Iterated `generateTimecode` calls within one session. -/
def iterTC : Nat → TimecodeState → TimecodeState
  | 0, s => s
  | n + 1, s => stepTC (iterTC n s)

/-! ## Frames and the transmission event trace -/

/-- A JPEG frame buffer delivered by `CameraManager::captureForced`
(src/lib/CameraManager/CameraManager.cpp lines 157-197); `id` identifies the
underlying `camera_fb_t` pointer, `len`/`width`/`height` its metadata. -/
structure Frame where
  id : Nat
  len : Nat
  width : Nat
  height : Nat
deriving Repr, DecidableEq

/-- Observable effects of a frame-send: camera captures and buffer releases
(`esp_camera_fb_return`, directly or through `CameraManager::releaseFrame`),
and RTP packets put on the wire (UDP datagrams or TCP-interleaved chunks).
Packet fields: RTP sequence number, RTP timestamp, the 24-bit JPEG fragment
offset field, the marker bit, and the payload size. -/
inductive Event where
  | capture (id : Nat)
  | captureFail
  | release (id : Nat)
  | udpPacket (seq pts off : Nat) (marker : Bool) (size : Nat)
  | tcpPacket (seq pts off : Nat) (marker : Bool) (size : Nat)
deriving Repr, DecidableEq

/-- An emitted RTP packet, as extracted from the event trace. -/
structure Pkt where
  seq : Nat
  pts : Nat
  off : Nat
  marker : Bool
  size : Nat
deriving Repr, DecidableEq

/-- The UDP packets of an event trace, in emission order. -/
def udpPkts : List Event → List Pkt
  | [] => []
  | Event.udpPacket a b c d e :: rest => ⟨a, b, c, d, e⟩ :: udpPkts rest
  | _ :: rest => udpPkts rest

/-- The TCP-interleaved packets of an event trace, in emission order. -/
def tcpPkts : List Event → List Pkt
  | [] => []
  | Event.tcpPacket a b c d e :: rest => ⟨a, b, c, d, e⟩ :: tcpPkts rest
  | _ :: rest => tcpPkts rest

/-- How many times buffer `i` is released in a trace. -/
def releaseCount : List Event → Nat → Nat
  | [], _ => 0
  | Event.release j :: rest, i => (if j = i then 1 else 0) + releaseCount rest i
  | _ :: rest, i => releaseCount rest i

/-- How many times buffer `i` is captured in a trace. -/
def captureCount : List Event → Nat → Nat
  | [], _ => 0
  | Event.capture j :: rest, i => (if j = i then 1 else 0) + captureCount rest i
  | _ :: rest, i => captureCount rest i

/-- `uint16_t` RTP sequence increment with the zero-skip of
RTSPClientSession.cpp lines 707-714 (and 874-881 for TCP):
`sequenceNumber++` wraps mod 2^16, and a wrapped 0 is forced to 1. -/
def wrapInc (seq : Nat) : Nat :=
  let s1 := (seq + 1) % U16
  if s1 = 0 then 1 else s1

/-! ## Session state (RTSPClientSession.h lines 29-61) -/

/-- Per-session mutable state of `RTSPClientSession`.  `clientRtpIp` models
the stored `IPAddress` as an abstract numeric value; `currentPts` holds
`currentTimecode.pts` (which `updateTimecodeForFrame` also copies into the
`timestamp` member). -/
structure SessionState where
  playing : Bool
  clientRtpIp : Nat
  clientRtpPort : Nat
  clientRtcpPort : Nat
  lastFrameTime : Nat
  frameInterval : Nat
  sequenceNumber : Nat
  useTcpInterleaved : Bool
  rtpChannel : Nat
  rtcpChannel : Nat
  serverUdpPort : Nat
  udpErrorCount : Nat
  lastUdpErrorTime : Nat
  currentFramerate : Nat
  tc : TimecodeState
  currentPts : Nat
deriving Repr, DecidableEq

/-- Fresh session state right after the constructor
(RTSPClientSession.h default initializers and RTSPClientSession.cpp
lines 15-28: `lastFrameTime = DEFAULT_FRAME_TIME`,
`frameInterval = 1000 / RTSP_FPS`). -/
def initSession : SessionState :=
  { playing := false
    clientRtpIp := 0
    clientRtpPort := 0
    clientRtcpPort := 0
    lastFrameTime := DEFAULT_FRAME_TIME
    frameInterval := 1000 / RTSP_FPS
    sequenceNumber := 0
    useTcpInterleaved := false
    rtpChannel := 0
    rtcpChannel := 1
    serverUdpPort := 0
    udpErrorCount := 0
    lastUdpErrorTime := 0
    currentFramerate := RTSP_FPS
    tc := resetTC
    currentPts := 0 }

/-! ## RTSP request parsing results (RTSPClientSession.cpp lines 190-234,
271-404).  Each field records the outcome of one string test the source
performs on the request text. -/

/-- The request-line method, discriminated by `firstLine.startsWith`
(lines 236, 245, 271, 452, 483, 494; anything else falls to line 505). -/
inductive Method where
  | OPTIONS
  | DESCRIBE
  | SETUP
  | PLAY
  | PAUSE
  | TEARDOWN
  | UNKNOWN
deriving Repr, DecidableEq

/-- Parsed view of one RTSP request.
`validPath` — `firstLine.indexOf(HTTP_MJPEG_PATH) != -1 || firstLine.indexOf(RTSP_PATH) != -1` (line 213);
`hasTransport` — `request.indexOf("Transport:") != -1` (line 281);
`tcpToken` — `transportLine.indexOf("interleaved") != -1 || transportLine.indexOf("RTP/AVP/TCP") != -1` (line 292);
`hasInterleavedParam` — `transportLine.indexOf("interleaved=") != -1` (line 305);
`interleavedPair` — the `<lo>-<hi>` pair when the channel string contains a dash (lines 313-327), `none` otherwise;
`hasClientPort` — `transportLine.indexOf("client_port=") != -1` (line 351);
`clientPortPair` — the `toInt()` values of the two port substrings (lines 360-363);
`remoteIp` — `client.remoteIP()` (line 364). -/
structure RTSPRequest where
  method : Method
  validPath : Bool
  hasTransport : Bool
  tcpToken : Bool
  hasInterleavedParam : Bool
  interleavedPair : Option (Nat × Nat)
  hasClientPort : Bool
  clientPortPair : Nat × Nat
  remoteIp : Nat
deriving Repr, DecidableEq

/-- Response construction shared by both SETUP transport modes
(RTSPClientSession.cpp lines 406-450): TCP-interleaved mode answers 200
directly; UDP mode picks `serverUdpPort = 20000 + esp_random() % 10000`
(the random draw is the input `randPort`), attempts `udp.begin` (outcome
`bindOk`), answering 500 on bind failure and 200 otherwise. -/
def finishSETUP (s : SessionState) (randPort : Nat) (bindOk : Bool) :
    SessionState × String :=
  if s.useTcpInterleaved = true then (s, "200 OK")
  else
    let s1 := { s with serverUdpPort := 20000 + randPort % 10000 }
    if bindOk = false then (s1, "500 Internal Server Error")
    else (s1, "200 OK")

/-- The SETUP branch of `processRequest` (lines 271-451), faithful to the
source's assignment order: the transport mode and (in UDP mode) the client
ports/address are stored *before* the 400 validations fire. -/
def processSETUP (s : SessionState) (req : RTSPRequest) (randPort : Nat) (bindOk : Bool) :
    SessionState × String :=
  if req.validPath = false then (s, "404 Not Found")
  else if req.hasTransport = true then
    if req.tcpToken = true ∨ RTSP_UDP_TCP_FALLBACK = 2 then
      let s1 := { s with useTcpInterleaved := true }
      let s2 :=
        if req.hasInterleavedParam = true then
          match req.interleavedPair with
          | some p => { s1 with rtpChannel := p.1, rtcpChannel := p.2 }
          | none => { s1 with rtpChannel := 0, rtcpChannel := 1 }
        else { s1 with rtpChannel := 0, rtcpChannel := 1 }
      finishSETUP s2 randPort bindOk
    else
      let s1 :=
        if RTSP_UDP_TCP_FALLBACK = 2 then { s with useTcpInterleaved := true }
        else { s with useTcpInterleaved := false }
      if req.hasClientPort = true then
        let s2 := { s1 with clientRtpPort := req.clientPortPair.1,
                            clientRtcpPort := req.clientPortPair.2,
                            clientRtpIp := req.remoteIp }
        if s2.clientRtpPort = 0 ∨ s2.clientRtcpPort = 0 then (s2, "400 Bad Request")
        else finishSETUP s2 randPort bindOk
      else (s1, "400 Bad Request")
  else (s, "400 Bad Request")

/-- `RTSPClientSession::processRequest` (lines 190-510) as a state
transition returning the response status line.  The PLAY branch performs the
resets of lines 468-479 (`playing = true`, `lastFrameTime`,
`currentFramerate`, `frameInterval`, `udpErrorCount`, `lastUdpErrorTime`,
`timecodeManager.resetFrameCounter()`, `sequenceNumber = 0`); PAUSE and
TEARDOWN only clear `playing` (lines 483-504) and do not check the path. -/
def processRequest (s : SessionState) (req : RTSPRequest) (randPort : Nat) (bindOk : Bool) :
    SessionState × String :=
  match req.method with
  | .OPTIONS => (s, "200 OK")
  | .DESCRIBE => if req.validPath = false then (s, "404 Not Found") else (s, "200 OK")
  | .SETUP => processSETUP s req randPort bindOk
  | .PLAY =>
    if req.validPath = false then (s, "404 Not Found")
    else
      ({ s with playing := true
                lastFrameTime := DEFAULT_FRAME_TIME
                currentFramerate := RTSP_FPS
                frameInterval := 1000 / RTSP_FPS
                udpErrorCount := 0
                lastUdpErrorTime := 0
                tc := { s.tc with frame_counter := 0, last_frame_timestamp := 0 }
                sequenceNumber := 0 }, "200 OK")
  | .PAUSE => ({ s with playing := false }, "200 OK")
  | .TEARDOWN => ({ s with playing := false }, "200 OK")
  | .UNKNOWN => (s, "501 Not Implemented")

/-! ## UDP transport with retries (RTSPClientSession.cpp lines 549-748) -/

/-- Outcome of one UDP send attempt: which of the three steps
`udp.beginPacket` (line 624), the two `udp.write`s (lines 641-644) and
`udp.endPacket` (line 653) fails first, or success. -/
inductive UdpAttempt where
  | beginFail
  | writeFail
  | endFail
  | success
deriving Repr, DecidableEq

/-- The local variables of the fragment loop that survive across fragments:
the RTP sequence number, the oracle attempt index, the resilience counters,
the transport-promotion state and the `frameSentSuccessfully` flag. -/
structure UdpMut where
  seq : Nat
  idx : Nat
  udpErrorCount : Nat
  lastUdpErrorTime : Nat
  useTcpInterleaved : Bool
  rtpChannel : Nat
  rtcpChannel : Nat
  frameOk : Bool
deriving Repr, DecidableEq

/-- How the per-fragment retry loop ended. -/
inductive FragStatus where
  | sent
  | exhausted
  | promoted
deriving Repr, DecidableEq

/-- The retry loop of lines 618-675:
`while (!packetSent && retryCount < RTSP_UDP_MAX_RETRIES)`.  `budget` is
`RTSP_UDP_MAX_RETRIES - retryCount` (so the loop guard is `budget > 0`) and
`rc` the current `retryCount`.  A `beginPacket` failure past half the retry
budget triggers `resetUDPConnection()` (lines 631-636), which clears
`udpErrorCount` and `lastUdpErrorTime` (lines 164-188).  An `endPacket`
failure on the last allowed attempt with a connected client and fallback
enabled promotes the session to TCP-interleaved (lines 659-668). -/
def udpRetryLoop : Nat → Nat → UdpMut → (Nat → UdpAttempt) → Bool → FragStatus × UdpMut
  | 0, _, m, _, _ => (.exhausted, m)
  | budget + 1, rc, m, oracle, connected =>
    match oracle m.idx with
    | .success => (.sent, { m with idx := m.idx + 1 })
    | .beginFail =>
      udpRetryLoop budget (rc + 1)
        (if RTSP_UDP_MAX_RETRIES / 2 ≤ rc + 1 then
          { m with idx := m.idx + 1, udpErrorCount := 0, lastUdpErrorTime := 0 }
         else { m with idx := m.idx + 1 }) oracle connected
    | .writeFail =>
      udpRetryLoop budget (rc + 1) { m with idx := m.idx + 1 } oracle connected
    | .endFail =>
      if RTSP_UDP_MAX_RETRIES ≤ rc + 1 ∧ connected = true ∧ 1 ≤ RTSP_UDP_TCP_FALLBACK then
        (.promoted, { m with idx := m.idx + 1, useTcpInterleaved := true, rtpChannel := 0,
                             rtcpChannel := 1, frameOk := false })
      else udpRetryLoop budget (rc + 1) { m with idx := m.idx + 1 } oracle connected

/-- State change applied to the fragment-loop variables after a fragment is
successfully sent: the error-counter hysteresis decrement of lines 696-702
followed by the sequence-number increment with zero-skip of lines 707-714. -/
def udpSentUpdate (m : UdpMut) : UdpMut :=
  { m with
    udpErrorCount := if 0 < m.udpErrorCount then m.udpErrorCount - 1 else m.udpErrorCount,
    seq := wrapInc m.seq }

/-- The UDP fragment loop `while (offset < fb->len)` of lines 559-729.
`fuel` bounds the number of loop iterations (each iteration either advances
`offset` by at least one byte or breaks, so `fuel ≥ fb.len - off` is enough
for the loop to run to its natural end).  On a sent fragment the error
counter is decremented with the hysteresis of lines 696-702, an
`Event.udpPacket` carrying the header fields of lines 586-604 is emitted,
and the sequence number advances with `wrapInc` (lines 707-714).  On an
exhausted or promoted fragment the failure block of lines 677-694 runs
(error count increment, error timestamp, `frameSentSuccessfully = false`,
auto reset past the threshold) and the loop breaks. -/
def udpLoop : Nat → Frame → Nat → Nat → Nat → (Nat → UdpAttempt) → Bool → Nat → UdpMut →
    UdpMut × List Event
  | 0, _, _, _, _, _, _, _, m => (m, [])
  | fuel + 1, fb, pts, now, maxPayload, oracle, connected, off, m =>
    if off < fb.len then
      let fragSize := min (fb.len - off) maxPayload
      let isLast := decide (fb.len ≤ off + fragSize)
      let r := udpRetryLoop RTSP_UDP_MAX_RETRIES 0 m oracle connected
      match r.1 with
      | .sent =>
        let m1 := r.2
        let rest := udpLoop fuel fb pts now maxPayload oracle connected (off + fragSize)
          (udpSentUpdate m1)
        (rest.1, Event.udpPacket m1.seq pts (off % U24) isLast fragSize :: rest.2)
      | _ =>
        let m1 := r.2
        let m2 := { m1 with udpErrorCount := m1.udpErrorCount + 1, lastUdpErrorTime := now,
                            frameOk := false }
        let m3 :=
          if RTSP_UDP_RESET_THRESHOLD ≤ m2.udpErrorCount ∧ RTSP_UDP_AUTO_RESET = true then
            { m2 with udpErrorCount := 0, lastUdpErrorTime := 0 }
          else m2
        (m3, [])
    else (m, [])

/-! ## TCP-interleaved transport (RTSPClientSession.cpp lines 750-896) -/

/-- Outcomes of the three `client.write` calls of one fragment iteration
(lines 845, 852, 858) and of the `client.connected()` probe taken after a
payload short write (line 863). -/
structure TcpIter where
  markerOk : Bool
  headerOk : Bool
  payloadOk : Bool
  connectedAfter : Bool
deriving Repr, DecidableEq

/-- The TCP fragment loop `while (offset < fb->len)` of lines 775-888.
A short write of the 4-byte interleaved marker or of the RTP/JPEG header
breaks out of the loop (lines 845-856).  A short write of the payload breaks
only when the client has disconnected; otherwise the source delays 1 ms and
`continue`s, retrying the same fragment with the same offset and sequence
number (lines 858-870) — `fuel` bounds these potentially unbounded
iterations.  A fully written fragment emits an `Event.tcpPacket` and
advances offset and sequence number (lines 872-881). -/
def tcpLoop : Nat → Frame → Nat → Nat → (Nat → TcpIter) → Nat → Nat → Nat →
    Nat × List Event
  | 0, _, _, _, _, _, _, seq => (seq, [])
  | fuel + 1, fb, pts, maxPayload, oracle, iter, off, seq =>
    if off < fb.len then
      let fragSize := min (fb.len - off) maxPayload
      let isLast := decide (fb.len ≤ off + fragSize)
      let o := oracle iter
      if o.markerOk = false then (seq, [])
      else if o.headerOk = false then (seq, [])
      else if o.payloadOk = false then
        if o.connectedAfter = false then (seq, [])
        else tcpLoop fuel fb pts maxPayload oracle (iter + 1) off seq
      else
        let rest := tcpLoop fuel fb pts maxPayload oracle (iter + 1) (off + fragSize)
          (wrapInc seq)
        (rest.1, Event.tcpPacket seq pts (off % U24) isLast fragSize :: rest.2)
    else (seq, [])

/-- `RTSPClientSession::sendRTPFrameTCP` (lines 750-896): update the
timecode (line 753), capture a frame (`cap`, line 756; early return when the
capture fails, line 760), run the fragment loop, and release the buffer
exactly once at line 894. -/
def sendRTPFrameTCP (s : SessionState) (cap : Option Frame) (oracle : Nat → TcpIter)
    (elapsed clockRef : Nat) (ntp : Bool) (fuel : Nat) : SessionState × List Event :=
  let g := generateTimecode s.tc elapsed clockRef ntp
  let s1 := { s with tc := g.2, currentPts := g.1.pts }
  match cap with
  | none => (s1, [Event.captureFail])
  | some fb =>
    let r := tcpLoop fuel fb g.1.pts TCP_MAX_PAYLOAD oracle 0 0 s1.sequenceNumber
    ({ s1 with sequenceNumber := r.1 }, Event.capture fb.id :: (r.2 ++ [Event.release fb.id]))

/-- Environment of one `sendRTPFrame` call: the two possible
`CameraManager::captureForced` results (`cap1` for the first capture of the
invoked path, `cap2` for the capture performed by the TCP resend after a
UDP failure, line 738), the transport oracles, the `client.connected()`
state, the clock inputs of the (up to two) `generateTimecode` calls, the
`millis()` value stored into `lastUdpErrorTime`, and the loop fuel. -/
structure SendEnv where
  cap1 : Option Frame
  cap2 : Option Frame
  udpOracle : Nat → UdpAttempt
  tcpOracle : Nat → TcpIter
  connected : Bool
  elapsed : Nat
  elapsed2 : Nat
  clockRef : Nat
  clockRef2 : Nat
  ntp : Bool
  now : Nat
  fuel : Nat

/-- `RTSPClientSession::sendRTPFrame` (lines 521-748).  Dispatches to the
TCP path when the session is TCP-interleaved or TCP is forced (line 524);
returns without touching anything when no client RTP port is configured
(line 530, before the timecode update and the capture); otherwise updates
the timecode (line 537), captures (line 540), runs the UDP fragment loop,
releases the buffer at line 732 (`CameraManager::releaseFrame`), resends
the frame over TCP after a UDP failure when permitted (lines 735-739), and
then unconditionally releases the same buffer again at line 746
(`esp_camera_fb_return(fb)`). -/
def sendRTPFrame (s : SessionState) (env : SendEnv) : SessionState × List Event :=
  if s.useTcpInterleaved = true ∨ RTSP_UDP_TCP_FALLBACK = 2 then
    sendRTPFrameTCP s env.cap1 env.tcpOracle env.elapsed env.clockRef env.ntp env.fuel
  else if s.clientRtpPort = 0 then (s, [])
  else
    let g := generateTimecode s.tc env.elapsed env.clockRef env.ntp
    let s1 := { s with tc := g.2, currentPts := g.1.pts }
    match env.cap1 with
    | none => (s1, [Event.captureFail])
    | some fb =>
      let m0 : UdpMut :=
        { seq := s1.sequenceNumber, idx := 0, udpErrorCount := s1.udpErrorCount,
          lastUdpErrorTime := s1.lastUdpErrorTime, useTcpInterleaved := s1.useTcpInterleaved,
          rtpChannel := s1.rtpChannel, rtcpChannel := s1.rtcpChannel, frameOk := true }
      let r := udpLoop env.fuel fb g.1.pts env.now UDP_MAX_PAYLOAD env.udpOracle
        env.connected 0 m0
      let m := r.1
      let s2 := { s1 with
                  sequenceNumber := m.seq, udpErrorCount := m.udpErrorCount,
                  lastUdpErrorTime := m.lastUdpErrorTime,
                  useTcpInterleaved := m.useTcpInterleaved,
                  rtpChannel := m.rtpChannel, rtcpChannel := m.rtcpChannel }
      let evs1 := Event.capture fb.id :: (r.2 ++ [Event.release fb.id])
      if m.frameOk = false ∧ (s2.useTcpInterleaved = true ∨ 1 ≤ RTSP_UDP_TCP_FALLBACK) ∧
          env.connected = true then
        let r2 := sendRTPFrameTCP s2 env.cap2 env.tcpOracle env.elapsed2 env.clockRef2
          env.ntp env.fuel
        (r2.1, evs1 ++ r2.2 ++ [Event.release fb.id])
      else (s2, evs1 ++ [Event.release fb.id])

/-! ## Server connection management (src/lib/Nano-RTSP/NanoRTSPServer.cpp) -/

/-- `NanoRTSPServer::acceptNewClients` (lines 37-58).  Sessions are their
identifiers; `incoming` is the connection returned by `server.available()`.
Returns the new session list, whether the incoming connection was closed
(`client.stop()`, line 51), and the list of RTSP responses written to the
incoming connection (always empty: the source writes nothing here). -/
def acceptNewClients (clients : List Nat) (incoming : Option Nat) :
    List Nat × Bool × List String :=
  match incoming with
  | none => (clients, false, [])
  | some c =>
    if MAX_RTSP_CLIENTS ≤ clients.length then (clients, true, [])
    else (clients ++ [c], false, [])

/-- `NanoRTSPServer::removeDisconnectedClients` (lines 60-76). -/
def removeDisconnectedClients (clients : List Nat) (connected : Nat → Bool) : List Nat :=
  clients.filter connected

/-- `NanoRTSPServer::handleClients` (lines 22-35): accept, reap, then call
`handle()` on every connected session.  Returns the session list after the
tick and the sessions that were handled. -/
def handleClients (clients : List Nat) (incoming : Option Nat) (connected : Nat → Bool) :
    List Nat × List Nat :=
  let a := acceptNewClients clients incoming
  let c2 := removeDisconnectedClients a.1 connected
  (c2, c2.filter connected)

/-! ## Ceiling division (fragment count) -/

/-- Number of fragments a frame of `S` bytes yields with payload ceiling
`P`: the ceiling of `S / P`. -/
def numFrags (S P : Nat) : Nat := (S + P - 1) / P

/-! ## Concrete fixtures used by witnesses and counterexamples -/

/-- Transport oracle on which every UDP attempt succeeds. -/
def succUdpOracle : Nat → UdpAttempt := fun _ => .success

/-- Transport oracle on which every TCP write completes. -/
def okTcpOracle : Nat → TcpIter := fun _ => ⟨true, true, true, true⟩

/-- TCP oracle whose first iteration suffers a payload short write with the
client still connected, after which every write completes. -/
def retryTcpOracle : Nat → TcpIter :=
  fun i => if i = 0 then ⟨true, true, false, true⟩ else ⟨true, true, true, true⟩

/-- TCP oracle on which the 4-byte interleaved marker write always falls
short. -/
def markerFailTcpOracle : Nat → TcpIter := fun _ => ⟨false, true, true, true⟩

/-- A 100-byte test frame. -/
def frame100 : Frame := { id := 1, len := 100, width := 640, height := 480 }

/-- A 100-byte test frame with a distinct buffer identity. -/
def frameA : Frame := { id := 3, len := 100, width := 640, height := 480 }

/-- A 2000-byte test frame (two TCP fragments). -/
def frame2000 : Frame := { id := 4, len := 2000, width := 640, height := 480 }

/-- A 1300-byte test frame (three UDP fragments of ceiling 580). -/
def frame1300 : Frame := { id := 5, len := 1300, width := 640, height := 480 }

/-- Baseline request record; fixtures override the relevant fields. -/
def baseReq : RTSPRequest :=
  { method := .UNKNOWN, validPath := true, hasTransport := false, tcpToken := false,
    hasInterleavedParam := false, interleavedPair := none, hasClientPort := false,
    clientPortPair := (0, 0), remoteIp := 0 }

/-- A PLAY request on the configured stream path. -/
def playReq : RTSPRequest := { baseReq with method := .PLAY }

/-- A PAUSE request. -/
def pauseReq : RTSPRequest := { baseReq with method := .PAUSE }

/-- Fragment-loop variables at the start of a send from a fresh session. -/
def mutInit : UdpMut :=
  { seq := 0, idx := 0, udpErrorCount := 0, lastUdpErrorTime := 0,
    useTcpInterleaved := false, rtpChannel := 0, rtcpChannel := 1, frameOk := true }

/-- A SETUP request negotiating UDP with `client_port=5000-5001`. -/
def udpSetupReq : RTSPRequest :=
  { baseReq with method := .SETUP, hasTransport := true, tcpToken := false,
                 hasClientPort := true, clientPortPair := (5000, 5001), remoteIp := 777 }

/-- A SETUP request whose Transport header requests UDP but carries no
`client_port` parameter. -/
def setupNoPortReq : RTSPRequest :=
  { baseReq with method := .SETUP, hasTransport := true, tcpToken := false,
                 hasClientPort := false }

/-- A session that completed a UDP SETUP for client ports 5000-5001 and has
a nonzero sequence number from earlier streaming. -/
def sReadyUdp : SessionState :=
  { initSession with clientRtpPort := 5000, clientRtcpPort := 5001, sequenceNumber := 17 }

/-- A session that completed a UDP SETUP and has not started playing. -/
def sUdpReady : SessionState :=
  { initSession with clientRtpPort := 5000, clientRtcpPort := 5001 }

/-- A session promoted to TCP-interleaved transport. -/
def sTcpMode : SessionState := { initSession with useTcpInterleaved := true }

/-- A session promoted to TCP-interleaved that still remembers its
negotiated UDP client ports. -/
def sTcpPromoted : SessionState :=
  { initSession with useTcpInterleaved := true, clientRtpPort := 5000,
                     clientRtcpPort := 5001 }

/-- A paused session with live counters: PAUSE was received mid-stream, so
the sequence number, error counter, adapted framerate and timecode state
are all nonzero. -/
def sPaused : SessionState :=
  { initSession with playing := false, clientRtpPort := 5000, clientRtcpPort := 5001,
                     sequenceNumber := 42, udpErrorCount := 3, currentFramerate := 12,
                     tc := { frame_counter := 7, last_frame_timestamp := 42000,
                             timecode_mode := 1 } }

/-- Send environment delivering one 100-byte frame over a fault-free
transport. -/
def envOneFrame : SendEnv :=
  { cap1 := some frame100, cap2 := none, udpOracle := succUdpOracle,
    tcpOracle := okTcpOracle, connected := true, elapsed := 1, elapsed2 := 1,
    clockRef := 0, clockRef2 := 0, ntp := false, now := 0, fuel := 200 }

/-- Send environment delivering the 100-byte frame `frameA` over a
fault-free transport. -/
def envFrameA : SendEnv := { envOneFrame with cap1 := some frameA }

/-- Send environment with no frame available. -/
def envIdle : SendEnv := { envOneFrame with cap1 := none }

/-! # Theorems -/

/-! ## General helper lemmas -/

theorem filter_eq_of_all (l : List Nat) (p : Nat → Bool) (h : ∀ x ∈ l, p x = true) :
    l.filter p = l := by
  induction l with
  | nil => rfl
  | cons a t ih =>
    have ha : p a = true := h a (by simp)
    have ht : t.filter p = t := ih fun x hx => h x (by simp [hx])
    simp [List.filter_cons, ha, ht]

theorem wrapInc_ne_zero (s : Nat) : wrapInc s ≠ 0 := by
  by_cases h : (s + 1) % U16 = 0 <;> simp [wrapInc, h]

theorem udpPkts_append (l1 l2 : List Event) :
    udpPkts (l1 ++ l2) = udpPkts l1 ++ udpPkts l2 := by
  induction l1 with
  | nil => rfl
  | cons e t ih => cases e <;> simp [udpPkts, ih]

theorem udpPkts_tcpLoop (fuel : Nat) :
    ∀ (fb : Frame) (pts maxP : Nat) (oracle : Nat → TcpIter) (iter off seq : Nat),
      udpPkts (tcpLoop fuel fb pts maxP oracle iter off seq).2 = [] := by
  induction fuel with
  | zero => intro fb pts maxP oracle iter off seq; rfl
  | succ n ih =>
    intro fb pts maxP oracle iter off seq
    simp only [tcpLoop]
    split_ifs <;> simp [udpPkts, ih]

theorem sendRTPFrameTCP_useTcp (s : SessionState) (cap : Option Frame)
    (oracle : Nat → TcpIter) (elapsed clockRef : Nat) (ntp : Bool) (fuel : Nat) :
    (sendRTPFrameTCP s cap oracle elapsed clockRef ntp fuel).1.useTcpInterleaved =
      s.useTcpInterleaved ∧
    udpPkts (sendRTPFrameTCP s cap oracle elapsed clockRef ntp fuel).2 = [] := by
  unfold sendRTPFrameTCP
  cases cap with
  | none => simp [udpPkts]
  | some fb => simp [udpPkts, udpPkts_append, udpPkts_tcpLoop]

/-! ## Timecode helper lemmas -/

theorem fixZeroPts_ne_zero (p : Nat) : fixZeroPts p ≠ 0 := by
  unfold fixZeroPts
  split
  · decide
  · assumption

theorem forcePts_spec (last p : Nat) (hp : p ≠ 0)
    (h : last + RTSP_CLOCK_RATE / RTSP_FPS < U32) :
    last < forcePts last p ∧ forcePts last p ≠ 0 := by
  have hfd : 0 < RTSP_CLOCK_RATE / RTSP_FPS := by decide
  unfold forcePts
  split
  case isTrue hc =>
    rw [Nat.mod_eq_of_lt h]
    omega
  case isFalse hc =>
    simp only [RTSP_FORCE_INCREASING_TIMECODES, true_and] at hc
    exact ⟨lt_of_not_le hc, hp⟩

theorem stepTC_closed (k : Nat) (hk : k + 1 ≤ 715827) :
    stepTC { frame_counter := k, last_frame_timestamp := k * 6000, timecode_mode := 1 } =
      { frame_counter := k + 1, last_frame_timestamp := (k + 1) * 6000,
        timecode_mode := 1 } := by
  have hU1 : k + 1 < U32 := by unfold U32; omega
  have hU2 : (k + 1) * 6000 < U32 := by unfold U32; omega
  have e1 : (k + 1) % U32 = k + 1 := Nat.mod_eq_of_lt hU1
  have e2 : ((k + 1) * 6000) % U32 = (k + 1) * 6000 := Nat.mod_eq_of_lt hU2
  have e3 : (k + 1) * 6000 ≠ 0 := by positivity
  have e4 : ¬((k + 1) * 6000 ≤ k * 6000) := by omega
  simp only [stepTC, generateTimecode, calculatePTS, calculateDTS, fixZeroPts, forcePts,
    RTSP_FORCE_INCREASING_TIMECODES, RTSP_CLOCK_RATE, RTSP_FPS]
  norm_num [e1, e2, e3, e4]

theorem iterTC_closed (n : Nat) (hn : n ≤ 715827) :
    iterTC n resetTC =
      { frame_counter := n, last_frame_timestamp := n * 6000, timecode_mode := 1 } := by
  induction n with
  | zero => simp [iterTC, resetTC, RTSP_TIMECODE_MODE]
  | succ k ih =>
    rw [iterTC, ih (by omega)]
    exact stepTC_closed k hn

/-! ## Claim C2 -/

/-- Claim C2 (code bug).  On a successful UDP frame send, the frame buffer
obtained from `CameraManager::captureForced` is captured once but released
twice: `CameraManager::releaseFrame(fb)` at RTSPClientSession.cpp line 732
and `esp_camera_fb_return(fb)` at line 746 both return the same buffer.  On
the TCP-interleaved path (`sendRTPFrameTCP`) the buffer is released exactly
once, as the claim demands. -/
theorem udp_send_releases_frame_twice :
    captureCount (sendRTPFrame sUdpReady envFrameA).2 frameA.id = 1 ∧
    releaseCount (sendRTPFrame sUdpReady envFrameA).2 frameA.id = 2 ∧
    captureCount (sendRTPFrameTCP sTcpMode (some frameA) okTcpOracle 1 0 false 200).2
      frameA.id = 1 ∧
    releaseCount (sendRTPFrameTCP sTcpMode (some frameA) okTcpOracle 1 0 false 200).2
      frameA.id = 1 := by decide

/-! ## Claim C3 -/

/-- Claim C3 (amended).  A PLAY on a valid path — in particular one that
follows a PAUSE with no intervening SETUP — answers 200 OK, resumes
emission, and always resets the RTP sequence number, the adaptive
framerate, the UDP error counters and the timecode frame counter to their
fresh-PLAY values, while preserving the negotiated transport mode and
client ports. -/
theorem play_always_resets_counters (s : SessionState) (req : RTSPRequest)
    (randPort : Nat) (bindOk : Bool)
    (hm : req.method = Method.PLAY) (hp : req.validPath = true) :
    (processRequest s req randPort bindOk).2 = "200 OK" ∧
    (processRequest s req randPort bindOk).1.playing = true ∧
    (processRequest s req randPort bindOk).1.sequenceNumber = 0 ∧
    (processRequest s req randPort bindOk).1.currentFramerate = RTSP_FPS ∧
    (processRequest s req randPort bindOk).1.udpErrorCount = 0 ∧
    (processRequest s req randPort bindOk).1.lastUdpErrorTime = 0 ∧
    (processRequest s req randPort bindOk).1.tc.frame_counter = 0 ∧
    (processRequest s req randPort bindOk).1.tc.last_frame_timestamp = 0 ∧
    (processRequest s req randPort bindOk).1.useTcpInterleaved = s.useTcpInterleaved ∧
    (processRequest s req randPort bindOk).1.clientRtpPort = s.clientRtpPort ∧
    (processRequest s req randPort bindOk).1.clientRtcpPort = s.clientRtcpPort := by
  simp [processRequest, hm, hp]

/-- Witness for `play_always_resets_counters` at a paused mid-stream
session. -/
theorem play_always_resets_counters_witness :
    (playReq.method = Method.PLAY ∧ playReq.validPath = true) ∧
    ((processRequest sPaused playReq 0 true).2 = "200 OK" ∧
     (processRequest sPaused playReq 0 true).1.playing = true ∧
     (processRequest sPaused playReq 0 true).1.sequenceNumber = 0 ∧
     (processRequest sPaused playReq 0 true).1.currentFramerate = RTSP_FPS ∧
     (processRequest sPaused playReq 0 true).1.udpErrorCount = 0 ∧
     (processRequest sPaused playReq 0 true).1.lastUdpErrorTime = 0 ∧
     (processRequest sPaused playReq 0 true).1.tc.frame_counter = 0 ∧
     (processRequest sPaused playReq 0 true).1.tc.last_frame_timestamp = 0 ∧
     (processRequest sPaused playReq 0 true).1.useTcpInterleaved =
       sPaused.useTcpInterleaved ∧
     (processRequest sPaused playReq 0 true).1.clientRtpPort = sPaused.clientRtpPort ∧
     (processRequest sPaused playReq 0 true).1.clientRtcpPort = sPaused.clientRtcpPort) :=
  ⟨⟨by decide, by decide⟩,
   play_always_resets_counters sPaused playReq 0 true (by decide) (by decide)⟩

/-- Claim C3 counterexample.  A paused session with sequence number 42,
error counter 3, adapted framerate 12 and frame counter 7 receives PLAY
without an intervening SETUP: emission resumes, but every one of those
counters is reset, contradicting the claim that none of them is. -/
theorem pause_play_resets_ce :
    sPaused.sequenceNumber = 42 ∧ sPaused.udpErrorCount = 3 ∧
    sPaused.currentFramerate = 12 ∧ sPaused.tc.frame_counter = 7 ∧
    (processRequest sPaused playReq 0 true).2 = "200 OK" ∧
    (processRequest sPaused playReq 0 true).1.playing = true ∧
    (processRequest sPaused playReq 0 true).1.sequenceNumber = 0 ∧
    (processRequest sPaused playReq 0 true).1.udpErrorCount = 0 ∧
    (processRequest sPaused playReq 0 true).1.currentFramerate = 15 ∧
    (processRequest sPaused playReq 0 true).1.tc.frame_counter = 0 := by decide

/-! ## Claim C5 -/

/-- Claim C5 (amended).  On the TCP-interleaved send path, a short write of
the 4-byte frame marker or of the RTP/JPEG header aborts the remaining
fragments of the current frame with no retry, as does a payload short write
with a disconnected client; the loop returns at once with no further packet
and an unchanged sequence number.  (A payload short write with the client
still connected instead retries the same fragment — see the
counterexample.) -/
theorem tcp_short_write_aborts (fuel : Nat) (fb : Frame) (pts maxP : Nat)
    (oracle : Nat → TcpIter) (iter off seq : Nat) (hoff : off < fb.len)
    (habort : (oracle iter).markerOk = false ∨
      ((oracle iter).markerOk = true ∧ (oracle iter).headerOk = false) ∨
      ((oracle iter).markerOk = true ∧ (oracle iter).headerOk = true ∧
       (oracle iter).payloadOk = false ∧ (oracle iter).connectedAfter = false)) :
    tcpLoop (fuel + 1) fb pts maxP oracle iter off seq = (seq, []) := by
  rcases habort with h1 | h | h
  · simp [tcpLoop, hoff, h1]
  · simp [tcpLoop, hoff, h.1, h.2]
  · simp [tcpLoop, hoff, h.1, h.2.1, h.2.2.1, h.2.2.2]

/-- Witness for `tcp_short_write_aborts`: a marker short write on the first
fragment of a 100-byte frame aborts the whole frame. -/
theorem tcp_short_write_aborts_witness :
    ((0 : Nat) < frame100.len ∧ (markerFailTcpOracle 0).markerOk = false) ∧
    tcpLoop 5 frame100 6000 TCP_MAX_PAYLOAD markerFailTcpOracle 0 0 9 = (9, []) :=
  ⟨⟨by decide, by decide⟩,
   tcp_short_write_aborts 4 frame100 6000 TCP_MAX_PAYLOAD markerFailTcpOracle 0 0 9
     (by decide) (Or.inl (by decide))⟩

/-- Claim C5 counterexample.  A payload short write on the first fragment
of a 2000-byte frame with the client still connected does not abort: the
source delays and retries the same fragment (RTSPClientSession.cpp lines
858-869), so both fragments (offsets 0 and 1380) are still emitted. -/
theorem tcp_payload_short_write_retries_ce :
    (retryTcpOracle 0).payloadOk = false ∧
    (retryTcpOracle 0).connectedAfter = true ∧
    (tcpPkts (tcpLoop 10 frame2000 6000 TCP_MAX_PAYLOAD retryTcpOracle 0 0 5).2).map
      Pkt.off = [0, 1380] := by decide

/-! ## Claim C8 -/

/-- Claim C8 (amended).  A SETUP whose Transport header is missing yields
400 Bad Request with the session state unchanged.  A SETUP requesting UDP
without a `client_port` parameter, or with a zero port, also yields 400 —
but only after the transport mode has already been switched to UDP and, in
the zero-port case, the stored client ports and address have been
overwritten; the playback state is unchanged in all three cases. -/
theorem setup_malformed_400 (s : SessionState) (req : RTSPRequest) (randPort : Nat)
    (bindOk : Bool) (hm : req.method = Method.SETUP) (hp : req.validPath = true) :
    (req.hasTransport = false →
      processRequest s req randPort bindOk = (s, "400 Bad Request")) ∧
    (req.hasTransport = true → req.tcpToken = false → req.hasClientPort = false →
      processRequest s req randPort bindOk =
        ({ s with useTcpInterleaved := false }, "400 Bad Request")) ∧
    (req.hasTransport = true → req.tcpToken = false → req.hasClientPort = true →
      (req.clientPortPair.1 = 0 ∨ req.clientPortPair.2 = 0) →
      processRequest s req randPort bindOk =
        ({ s with useTcpInterleaved := false,
                  clientRtpPort := req.clientPortPair.1,
                  clientRtcpPort := req.clientPortPair.2,
                  clientRtpIp := req.remoteIp }, "400 Bad Request")) := by
  refine ⟨?_, ?_, ?_⟩
  · intro h1
    simp [processRequest, hm, processSETUP, hp, h1]
  · intro h1 h2 h3
    simp [processRequest, hm, processSETUP, hp, h1, h2, h3, RTSP_UDP_TCP_FALLBACK]
  · intro h1 h2 h3 h4
    rcases h4 with h4 | h4 <;>
      simp [processRequest, hm, processSETUP, hp, h1, h2, h3, h4, RTSP_UDP_TCP_FALLBACK]

/-- Witness for `setup_malformed_400`: a UDP SETUP without `client_port`
sent to a session currently in TCP-interleaved mode. -/
theorem setup_malformed_400_witness :
    (setupNoPortReq.method = Method.SETUP ∧ setupNoPortReq.validPath = true ∧
     setupNoPortReq.hasTransport = true ∧ setupNoPortReq.tcpToken = false ∧
     setupNoPortReq.hasClientPort = false) ∧
    processRequest sTcpMode setupNoPortReq 0 true =
      ({ sTcpMode with useTcpInterleaved := false }, "400 Bad Request") :=
  ⟨⟨by decide, by decide, by decide, by decide, by decide⟩,
   (setup_malformed_400 sTcpMode setupNoPortReq 0 true (by decide) (by decide)).2.1
     (by decide) (by decide) (by decide)⟩

/-- Claim C8 counterexample.  The claim says the 400 reply leaves the
session state unchanged, but a UDP SETUP without `client_port` arriving at
a TCP-interleaved session answers 400 *and* flips the transport mode back
to UDP (`useTcpInterleaved = false` is assigned at RTSPClientSession.cpp
line 346 before the validation at line 379 fires). -/
theorem setup_400_mutates_state_ce :
    sTcpMode.useTcpInterleaved = true ∧
    (processRequest sTcpMode setupNoPortReq 0 true).2 = "400 Bad Request" ∧
    (processRequest sTcpMode setupNoPortReq 0 true).1.useTcpInterleaved = false := by
  decide

/-! ## Claim C9 -/

/-- Claim C9 (confirmed).  With the hard-coded cap of 5 concurrent
sessions, a connection accepted while the session list is full is closed
immediately (`client.stop()`), no RTSP response bytes are written to it,
it is never added to the session list, and a scheduler tick still leaves
the existing sessions in place and handles every one of them. -/
theorem session_cap_refuses_connection (clients : List Nat) (c : Nat)
    (connected : Nat → Bool) (h5 : MAX_RTSP_CLIENTS ≤ clients.length)
    (hconn : ∀ x ∈ clients, connected x = true) :
    acceptNewClients clients (some c) = (clients, true, []) ∧
    handleClients clients (some c) connected = (clients, clients) := by
  have ha : acceptNewClients clients (some c) = (clients, true, []) := by
    simp [acceptNewClients, h5]
  refine ⟨ha, ?_⟩
  simp [handleClients, ha, removeDisconnectedClients, filter_eq_of_all _ _ hconn]

/-- Witness for `session_cap_refuses_connection` at five live sessions. -/
theorem session_cap_refuses_connection_witness :
    (MAX_RTSP_CLIENTS ≤ [1, 2, 3, 4, 5].length ∧
     ∀ x ∈ [1, 2, 3, 4, 5], (fun _ => true) x = true) ∧
    acceptNewClients [1, 2, 3, 4, 5] (some 6) = ([1, 2, 3, 4, 5], true, []) ∧
    handleClients [1, 2, 3, 4, 5] (some 6) (fun _ => true) =
      ([1, 2, 3, 4, 5], [1, 2, 3, 4, 5]) :=
  ⟨⟨by decide, by decide⟩,
   session_cap_refuses_connection [1, 2, 3, 4, 5] 6 (fun _ => true)
     (by decide) (by decide)⟩

/-! ## Claim C10 -/

/-- Claim C10 (confirmed).  A PLAY on a valid path reaching a session with
no negotiated transport (UDP mode, client RTP port still 0) answers 200 OK
and marks the session playing, but `sendRTPFrame` then returns before the
timecode update and before any capture (RTSPClientSession.cpp line 530), so
a tick emits no RTP packet, captures no frame, and leaves the session state
— in particular the zero client RTP port — unchanged. -/
theorem play_without_setup_emits_nothing (s : SessionState) (req : RTSPRequest)
    (randPort : Nat) (bindOk : Bool) (env : SendEnv)
    (hm : req.method = Method.PLAY) (hp : req.validPath = true)
    (htcp : s.useTcpInterleaved = false) (hport : s.clientRtpPort = 0) :
    (processRequest s req randPort bindOk).2 = "200 OK" ∧
    (processRequest s req randPort bindOk).1.playing = true ∧
    (processRequest s req randPort bindOk).1.clientRtpPort = 0 ∧
    sendRTPFrame (processRequest s req randPort bindOk).1 env =
      ((processRequest s req randPort bindOk).1, []) := by
  refine ⟨by simp [processRequest, hm, hp], by simp [processRequest, hm, hp],
          by simp [processRequest, hm, hp, hport], ?_⟩
  simp [processRequest, hm, hp, sendRTPFrame, htcp, hport, RTSP_UDP_TCP_FALLBACK]

/-- Witness for `play_without_setup_emits_nothing` on a fresh session. -/
theorem play_without_setup_emits_nothing_witness :
    (playReq.method = Method.PLAY ∧ playReq.validPath = true ∧
     initSession.useTcpInterleaved = false ∧ initSession.clientRtpPort = 0) ∧
    ((processRequest initSession playReq 0 true).2 = "200 OK" ∧
     (processRequest initSession playReq 0 true).1.playing = true ∧
     (processRequest initSession playReq 0 true).1.clientRtpPort = 0 ∧
     sendRTPFrame (processRequest initSession playReq 0 true).1 envOneFrame =
       ((processRequest initSession playReq 0 true).1, [])) :=
  ⟨⟨by decide, by decide, by decide, by decide⟩,
   play_without_setup_emits_nothing initSession playReq 0 true envOneFrame
     (by decide) (by decide) (by decide) (by decide)⟩

/-! ## Claim C6 -/

/-- Claim C6 (amended).  With the monotonic-timecode policy active
(`RTSP_FORCE_INCREASING_TIMECODES`), every `generateTimecode` call whose
stored previous PTS is small enough that adding one frame period does not
wrap 32 bits produces a PTS that is strictly greater than the previous PTS
and nonzero, for every timecode mode, clock reading and frame-counter value
— in particular even when the wall clock or the frame counter does not
advance.  (At the 32-bit wrap the recomputed PTS is reduced mod 2^32 and
can regress — see the counterexample.) -/
theorem pts_strictly_increasing_no_wrap (s : TimecodeState) (elapsed clockRef : Nat)
    (ntp : Bool) (h : s.last_frame_timestamp + RTSP_CLOCK_RATE / RTSP_FPS < U32) :
    s.last_frame_timestamp < (generateTimecode s elapsed clockRef ntp).1.pts ∧
    (generateTimecode s elapsed clockRef ntp).1.pts ≠ 0 ∧
    (generateTimecode s elapsed clockRef ntp).2.last_frame_timestamp =
      (generateTimecode s elapsed clockRef ntp).1.pts := by
  exact ⟨(forcePts_spec _ _ (fixZeroPts_ne_zero _) h).1,
         (forcePts_spec _ _ (fixZeroPts_ne_zero _) h).2, rfl⟩

/-- Witness for `pts_strictly_increasing_no_wrap` at the fresh-PLAY
timecode state. -/
theorem pts_strictly_increasing_no_wrap_witness :
    (resetTC.last_frame_timestamp + RTSP_CLOCK_RATE / RTSP_FPS < U32) ∧
    (resetTC.last_frame_timestamp < (generateTimecode resetTC 1 0 false).1.pts ∧
     (generateTimecode resetTC 1 0 false).1.pts ≠ 0 ∧
     (generateTimecode resetTC 1 0 false).2.last_frame_timestamp =
       (generateTimecode resetTC 1 0 false).1.pts) :=
  ⟨by decide, pts_strictly_increasing_no_wrap resetTC 1 0 false (by decide)⟩

/-- Claim C6 counterexample.  After 715827 ordinary calls from a fresh PLAY
the stored PTS is 715827 × 6000 = 4294962000; the 715828-th call computes
715828 × 6000 mod 2^32 = 704, the monotonicity correction recomputes
4294962000 + 6000 mod 2^32 = 704, and the emitted PTS 704 is *not* strictly
greater than its predecessor, refuting strict monotonicity for that
reachable pair of consecutive calls. -/
theorem pts_wraps_after_715828_frames_ce :
    iterTC 715827 resetTC =
      { frame_counter := 715827, last_frame_timestamp := 4294962000,
        timecode_mode := 1 } ∧
    (generateTimecode
      { frame_counter := 715827, last_frame_timestamp := 4294962000,
        timecode_mode := 1 } 1 0 false).1.pts = 704 ∧
    ¬ (4294962000 < 704) := by
  refine ⟨?_, by decide, by decide⟩
  have h := iterTC_closed 715827 le_rfl
  norm_num at h
  exact h

/-! ## UDP sequence-number lemmas -/

theorem udpRetryLoop_seq (budget : Nat) :
    ∀ (rc : Nat) (m : UdpMut) (oracle : Nat → UdpAttempt) (connected : Bool),
      (udpRetryLoop budget rc m oracle connected).2.seq = m.seq := by
  induction budget with
  | zero => intro rc m oracle connected; rfl
  | succ n ih =>
    intro rc m oracle connected
    simp only [udpRetryLoop]
    split
    · rfl
    · split <;> exact ih _ _ _ _
    · exact ih _ _ _ _
    · split
      · rfl
      · exact ih _ _ _ _

theorem udpRetryLoop_success_eq (m : UdpMut) (connected : Bool) :
    udpRetryLoop RTSP_UDP_MAX_RETRIES 0 m succUdpOracle connected =
      (FragStatus.sent, { m with idx := m.idx + 1 }) := rfl

theorem udpLoop_head_seq (fuel : Nat) (fb : Frame) (pts now maxP : Nat)
    (oracle : Nat → UdpAttempt) (connected : Bool) (off : Nat) (m : UdpMut) (p : Pkt)
    (h : (udpPkts (udpLoop fuel fb pts now maxP oracle connected off m).2).head? =
      some p) : p.seq = m.seq := by
  cases fuel with
  | zero => simp [udpLoop, udpPkts] at h
  | succ n =>
    by_cases hoff : off < fb.len
    · rcases hr : udpRetryLoop RTSP_UDP_MAX_RETRIES 0 m oracle connected with ⟨st, m1⟩
      simp only [udpLoop, if_pos hoff, hr] at h
      cases st with
      | sent =>
        have hseq : m1.seq = m.seq := by
          have h2 := udpRetryLoop_seq RTSP_UDP_MAX_RETRIES 0 m oracle connected
          rw [hr] at h2
          exact h2
        simp only [udpPkts, List.head?_cons, Option.some.injEq] at h
        rw [← h]
        exact hseq
      | exhausted => simp [udpPkts] at h
      | promoted => simp [udpPkts] at h
    · simp [udpLoop, hoff, udpPkts] at h

theorem udpLoop_seq_all_ne_zero (fuel : Nat) :
    ∀ (fb : Frame) (pts now maxP : Nat) (oracle : Nat → UdpAttempt) (connected : Bool)
      (off : Nat) (m : UdpMut), m.seq ≠ 0 →
      ∀ q ∈ udpPkts (udpLoop fuel fb pts now maxP oracle connected off m).2, q.seq ≠ 0 := by
  induction fuel with
  | zero => intro fb pts now maxP oracle connected off m hm q hq; simp [udpLoop, udpPkts] at hq
  | succ n ih =>
    intro fb pts now maxP oracle connected off m hm q hq
    by_cases hoff : off < fb.len
    · rcases hr : udpRetryLoop RTSP_UDP_MAX_RETRIES 0 m oracle connected with ⟨st, m1⟩
      simp only [udpLoop, if_pos hoff, hr] at hq
      cases st with
      | sent =>
        have hseq : m1.seq = m.seq := by
          have h2 := udpRetryLoop_seq RTSP_UDP_MAX_RETRIES 0 m oracle connected
          rw [hr] at h2
          exact h2
        simp only [udpPkts, List.mem_cons] at hq
        rcases hq with hq | hq
        · rw [hq]
          show m1.seq ≠ 0
          rw [hseq]
          exact hm
        · exact ih _ _ _ _ _ _ _ _ (wrapInc_ne_zero _) q hq
      | exhausted => simp [udpPkts] at hq
      | promoted => simp [udpPkts] at hq
    · simp [udpLoop, hoff, udpPkts] at hq

theorem udpLoop_tail_seq_ne_zero (fuel : Nat) (fb : Frame) (pts now maxP : Nat)
    (oracle : Nat → UdpAttempt) (connected : Bool) (off : Nat) (m : UdpMut) :
    ∀ q ∈ (udpPkts (udpLoop fuel fb pts now maxP oracle connected off m).2).tail,
      q.seq ≠ 0 := by
  cases fuel with
  | zero => intro q hq; simp [udpLoop, udpPkts] at hq
  | succ n =>
    intro q hq
    by_cases hoff : off < fb.len
    · rcases hr : udpRetryLoop RTSP_UDP_MAX_RETRIES 0 m oracle connected with ⟨st, m1⟩
      simp only [udpLoop, if_pos hoff, hr] at hq
      cases st with
      | sent =>
        simp only [udpPkts, List.tail_cons] at hq
        exact udpLoop_seq_all_ne_zero n _ _ _ _ _ _ _ _ (wrapInc_ne_zero _) q hq
      | exhausted => simp [udpPkts] at hq
      | promoted => simp [udpPkts] at hq
    · simp [udpLoop, hoff, udpPkts] at hq

/-! ## Claim C1 -/

/-- Claim C1 (amended).  A PLAY on a valid path resets the session's RTP
sequence number to 0, and the *first* RTP packet emitted by the UDP
fragment loop afterwards carries sequence number 0 — not 1.  Every packet
after the first carries a nonzero sequence number, because the per-packet
increment wraps 65535 to 1, skipping 0; so 0 appears in an emitted RTP
header exactly once per PLAY, as its first packet. -/
theorem play_first_packet_carries_seq_zero (s : SessionState) (req : RTSPRequest)
    (randPort : Nat) (bindOk : Bool) (fuel : Nat) (fb : Frame) (pts now maxP : Nat)
    (oracle : Nat → UdpAttempt) (connected : Bool) (m : UdpMut) (p q : Pkt)
    (hm : req.method = Method.PLAY) (hp : req.validPath = true)
    (hseq : m.seq = (processRequest s req randPort bindOk).1.sequenceNumber)
    (hhead : (udpPkts (udpLoop fuel fb pts now maxP oracle connected 0 m).2).head? =
      some p)
    (hq : q ∈ (udpPkts (udpLoop fuel fb pts now maxP oracle connected 0 m).2).tail) :
    (processRequest s req randPort bindOk).1.sequenceNumber = 0 ∧
    p.seq = 0 ∧ q.seq ≠ 0 := by
  have hz : (processRequest s req randPort bindOk).1.sequenceNumber = 0 := by
    simp [processRequest, hm, hp]
  refine ⟨hz, ?_, udpLoop_tail_seq_ne_zero fuel fb pts now maxP oracle connected 0 m q hq⟩
  have h1 := udpLoop_head_seq fuel fb pts now maxP oracle connected 0 m p hhead
  rw [h1, hseq, hz]

/-- Witness for `play_first_packet_carries_seq_zero`: PLAY on a configured
session, then a fault-free send of a 1300-byte frame; the head packet
carries sequence 0 and the second packet (offset 580) carries 1. -/
theorem play_first_packet_carries_seq_zero_witness :
    (playReq.method = Method.PLAY ∧ playReq.validPath = true ∧
     mutInit.seq = (processRequest sReadyUdp playReq 0 true).1.sequenceNumber ∧
     (udpPkts (udpLoop 1300 frame1300 6000 0 580 succUdpOracle true 0 mutInit).2).head? =
       some ⟨0, 6000, 0, false, 580⟩ ∧
     (⟨1, 6000, 580, false, 580⟩ : Pkt) ∈
       (udpPkts (udpLoop 1300 frame1300 6000 0 580 succUdpOracle true 0 mutInit).2).tail) ∧
    ((processRequest sReadyUdp playReq 0 true).1.sequenceNumber = 0 ∧
     (⟨0, 6000, 0, false, 580⟩ : Pkt).seq = 0 ∧
     (⟨1, 6000, 580, false, 580⟩ : Pkt).seq ≠ 0) :=
  ⟨⟨by decide, by decide, by decide, by decide, by decide⟩,
   play_first_packet_carries_seq_zero sReadyUdp playReq 0 true 1300 frame1300 6000 0 580
     succUdpOracle true mutInit ⟨0, 6000, 0, false, 580⟩ ⟨1, 6000, 580, false, 580⟩
     (by decide) (by decide) (by decide) (by decide) (by decide)⟩

/-- Claim C1 counterexample.  A session whose sequence number had advanced
to 17 receives PLAY; the first RTP packet the session then emits carries
sequence number 0 (PLAY stores 0 at RTSPClientSession.cpp line 479 and the
header is built from `sequenceNumber` at lines 586-587 before the
post-send increment at line 707), contradicting both parts of the claim:
the first packet does not carry 1, and 0 is placed in an emitted header. -/
theorem play_first_packet_not_one_ce :
    ((udpPkts (sendRTPFrame (processRequest sReadyUdp playReq 0 true).1
        envOneFrame).2).map Pkt.seq) = [0] ∧ (0 : Nat) ≠ 1 := by decide

/-! ## Claim C4 -/

/-- Claim C4 (amended).  Within the send path the UDP-to-TCP promotion is
one-way: once `useTcpInterleaved` is true, `sendRTPFrame` dispatches to the
TCP-interleaved path, leaves the mode true and emits no UDP packet; and no
non-SETUP request changes the mode.  A further SETUP, however, *can* revert
the session to UDP (see the counterexample), so the exclusion of SETUP is
necessary. -/
theorem tcp_promotion_one_way (s : SessionState) (env : SendEnv) (req : RTSPRequest)
    (randPort : Nat) (bindOk : Bool)
    (hs : s.useTcpInterleaved = true) (hreq : req.method ≠ Method.SETUP) :
    (sendRTPFrame s env).1.useTcpInterleaved = true ∧
    udpPkts (sendRTPFrame s env).2 = [] ∧
    (processRequest s req randPort bindOk).1.useTcpInterleaved = true := by
  have hdispatch : sendRTPFrame s env =
      sendRTPFrameTCP s env.cap1 env.tcpOracle env.elapsed env.clockRef env.ntp env.fuel := by
    unfold sendRTPFrame
    simp [hs]
  refine ⟨?_, ?_, ?_⟩
  · rw [hdispatch, (sendRTPFrameTCP_useTcp _ _ _ _ _ _ _).1]
    exact hs
  · rw [hdispatch]
    exact (sendRTPFrameTCP_useTcp _ _ _ _ _ _ _).2
  · cases hmeth : req.method
    case SETUP => exact absurd hmeth hreq
    all_goals simp [processRequest, hmeth, hs]
    case PLAY => split <;> simp [hs]
    case DESCRIBE => split <;> simp [hs]

/-- Witness for `tcp_promotion_one_way`: a promoted session, a fault-free
send environment and a PAUSE request. -/
theorem tcp_promotion_one_way_witness :
    (sTcpMode.useTcpInterleaved = true ∧ pauseReq.method ≠ Method.SETUP) ∧
    ((sendRTPFrame sTcpMode envOneFrame).1.useTcpInterleaved = true ∧
     udpPkts (sendRTPFrame sTcpMode envOneFrame).2 = [] ∧
     (processRequest sTcpMode pauseReq 0 true).1.useTcpInterleaved = true) :=
  ⟨⟨by decide, by decide⟩,
   tcp_promotion_one_way sTcpMode envOneFrame pauseReq 0 true (by decide) (by decide)⟩

/-- Claim C4 counterexample.  A session already promoted to TCP-interleaved
receives a further SETUP whose Transport header requests UDP with valid
client ports: the server answers 200 OK, the transport mode reverts to UDP
(`useTcpInterleaved = false`, RTSPClientSession.cpp line 346), and the next
frame send emits an RTP packet over UDP again — refuting the claim that no
later event, including a further SETUP, makes the session send over UDP. -/
theorem setup_reverts_tcp_to_udp_ce :
    sTcpPromoted.useTcpInterleaved = true ∧
    (processRequest sTcpPromoted udpSetupReq 0 true).2 = "200 OK" ∧
    (processRequest sTcpPromoted udpSetupReq 0 true).1.useTcpInterleaved = false ∧
    (udpPkts (sendRTPFrame (processRequest sTcpPromoted udpSetupReq 0 true).1
        envOneFrame).2).length = 1 := by decide

/-! ## Fragment-count lemmas -/

theorem numFrags_zero (P : Nat) (hP : 0 < P) : numFrags 0 P = 0 := by
  unfold numFrags
  apply Nat.div_eq_of_lt
  omega

theorem numFrags_pos (S P : Nat) (hP : 0 < P) (hS : 0 < S) : 0 < numFrags S P := by
  have h1 : 1 ≤ (S + P - 1) / P := (Nat.one_le_div_iff hP).mpr (by omega)
  unfold numFrags
  omega

theorem numFrags_eq_zero_iff (S P : Nat) (hP : 0 < P) : numFrags S P = 0 ↔ S = 0 := by
  constructor
  · intro h
    by_contra hS
    have h1 : 0 < numFrags S P := numFrags_pos S P hP (by omega)
    omega
  · intro h
    rw [h]
    exact numFrags_zero P hP

theorem numFrags_one (S P : Nat) (hP : 0 < P) (h1 : 0 < S) (h2 : S ≤ P) :
    numFrags S P = 1 := by
  have hlo : 1 ≤ (S + P - 1) / P := (Nat.one_le_div_iff hP).mpr (by omega)
  have hhi : (S + P - 1) / P < 2 := by
    rw [Nat.div_lt_iff_lt_mul hP]
    omega
  unfold numFrags
  omega

theorem numFrags_step (S P : Nat) (hP : 0 < P) (h : P < S) :
    numFrags S P = numFrags (S - P) P + 1 := by
  unfold numFrags
  have he : S + P - 1 = (S - P + P - 1) + P := by omega
  rw [he, Nat.add_div_right _ hP]

theorem numFrags_succ (S P : Nat) (hP : 0 < P) (hS : 0 < S) :
    numFrags S P = numFrags (S - min S P) P + 1 := by
  rcases le_or_lt S P with h | h
  · have h1 : min S P = S := by omega
    rw [h1, Nat.sub_self, numFrags_zero P hP, numFrags_one S P hP hS h]
  · have h1 : min S P = P := by omega
    rw [h1]
    exact numFrags_step S P hP h

theorem index_mul_lt (i S P : Nat) (hP : 0 < P) (h : i + 1 ≤ numFrags S P) :
    i * P < S := by
  unfold numFrags at h
  have h2 : (i + 1) * P ≤ S + P - 1 := (Nat.le_div_iff_mul_le hP).mp h
  rw [Nat.succ_mul] at h2
  omega

/-! ## The UDP fragment loop on a fault-free transport -/

theorem udpLoop_success_step (n : Nat) (fb : Frame) (pts now maxP : Nat) (conn : Bool)
    (off : Nat) (m : UdpMut) (hoff : off < fb.len) :
    udpLoop (n + 1) fb pts now maxP succUdpOracle conn off m =
      ((udpLoop n fb pts now maxP succUdpOracle conn (off + min (fb.len - off) maxP)
          (udpSentUpdate { m with idx := m.idx + 1 })).1,
       Event.udpPacket m.seq pts (off % U24)
         (decide (fb.len ≤ off + min (fb.len - off) maxP)) (min (fb.len - off) maxP) ::
       (udpLoop n fb pts now maxP succUdpOracle conn (off + min (fb.len - off) maxP)
          (udpSentUpdate { m with idx := m.idx + 1 })).2) := by
  simp only [udpLoop, if_pos hoff, udpRetryLoop_success_eq]

theorem udpLoop_success_spec (fb : Frame) (pts now maxP : Nat) (conn : Bool)
    (hP : 0 < maxP) :
    ∀ (fuel off : Nat) (m : UdpMut), fb.len - off ≤ fuel →
      (udpPkts (udpLoop fuel fb pts now maxP succUdpOracle conn off m).2).length =
        numFrags (fb.len - off) maxP ∧
      ∀ (i : Nat) (pk : Pkt),
        (udpPkts (udpLoop fuel fb pts now maxP succUdpOracle conn off m).2)[i]? =
          some pk →
        pk.off = (off + i * maxP) % U24 ∧
        (pk.marker = true ↔
          i + 1 =
            (udpPkts (udpLoop fuel fb pts now maxP succUdpOracle conn off m).2).length) := by
  intro fuel
  induction fuel with
  | zero =>
    intro off m h
    have hfl : fb.len - off = 0 := by omega
    refine ⟨?_, ?_⟩
    · simp [udpLoop, udpPkts, hfl, numFrags_zero maxP hP]
    · intro i pk hpk
      simp [udpLoop, udpPkts] at hpk
  | succ n ih =>
    intro off m h
    by_cases hoff : off < fb.len
    case neg =>
      have hfl : fb.len - off = 0 := by omega
      refine ⟨?_, ?_⟩
      · simp [udpLoop, hoff, udpPkts, hfl, numFrags_zero maxP hP]
      · intro i pk hpk
        simp [udpLoop, hoff, udpPkts] at hpk
    case pos =>
      have hS : 0 < fb.len - off := by omega
      have hfrag1 : 1 ≤ min (fb.len - off) maxP := by omega
      have hrec : fb.len - (off + min (fb.len - off) maxP) ≤ n := by omega
      obtain ⟨ihlen, ihidx⟩ :=
        ih (off + min (fb.len - off) maxP) (udpSentUpdate { m with idx := m.idx + 1 }) hrec
      have hsub : fb.len - (off + min (fb.len - off) maxP) =
          (fb.len - off) - min (fb.len - off) maxP := by omega
      have hlen :
          (udpPkts (udpLoop (n + 1) fb pts now maxP succUdpOracle conn off m).2).length =
            numFrags (fb.len - off) maxP := by
        rw [udpLoop_success_step n fb pts now maxP conn off m hoff]
        simp only [udpPkts, List.length_cons, ihlen]
        rw [hsub]
        exact (numFrags_succ (fb.len - off) maxP hP hS).symm
      refine ⟨hlen, ?_⟩
      intro i pk hpk
      rw [hlen]
      rw [udpLoop_success_step n fb pts now maxP conn off m hoff] at hpk
      cases i with
      | zero =>
        simp only [udpPkts, List.getElem?_cons_zero, Option.some.injEq] at hpk
        rw [← hpk]
        refine ⟨by simp, ?_⟩
        simp only [decide_eq_true_eq]
        constructor
        · intro hle
          have h0 : fb.len - off = min (fb.len - off) maxP := by omega
          rw [numFrags_one (fb.len - off) maxP hP hS (by omega)]
        · intro h1
          have h2 : numFrags (fb.len - off) maxP = 1 := by omega
          by_contra hgt
          have hlt : maxP < fb.len - off := by omega
          rw [numFrags_step (fb.len - off) maxP hP hlt] at h2
          have h3 : numFrags (fb.len - off - maxP) maxP = 0 := by omega
          have h4 := (numFrags_eq_zero_iff _ maxP hP).mp h3
          omega
      | succ j =>
        simp only [udpPkts, List.getElem?_cons_succ] at hpk
        have hj : j < (udpPkts (udpLoop n fb pts now maxP succUdpOracle conn
            (off + min (fb.len - off) maxP)
            (udpSentUpdate { m with idx := m.idx + 1 })).2).length :=
          (List.getElem?_eq_some.mp hpk).1
        have hrest_pos : 0 < numFrags (fb.len - (off + min (fb.len - off) maxP)) maxP := by
          omega
        have hrest_ne : fb.len - (off + min (fb.len - off) maxP) ≠ 0 := by
          intro h0
          rw [h0, numFrags_zero maxP hP] at hrest_pos
          omega
        have hfP : min (fb.len - off) maxP = maxP := by omega
        obtain ⟨hoffj, hmarkj⟩ := ihidx j pk hpk
        have harg : off + min (fb.len - off) maxP + j * maxP = off + (j + 1) * maxP := by
          rw [hfP, Nat.succ_mul]
          omega
        refine ⟨?_, ?_⟩
        · rw [hoffj, harg]
        · rw [hmarkj, ihlen, hsub, numFrags_succ (fb.len - off) maxP hP hS]
          omega

/-! ## Claim C7 -/

/-- Claim C7 (confirmed).  For a frame of `S` bytes sent with no transport
errors and a per-fragment payload ceiling of `P` bytes, the UDP fragment
loop emits exactly `⌈S/P⌉` RTP packets, the 24-bit JPEG fragment offset of
the `i`-th packet is `i·P`, and the RTP marker bit is set on the last
packet and on no other.  (Frames are at most 2^24 bytes, so the 24-bit
offset field does not truncate.) -/
theorem fragmentation_matches_ceiling (fb : Frame) (pts now maxP fuel : Nat)
    (conn : Bool) (m : UdpMut) (i : Nat) (pk : Pkt)
    (hP : 0 < maxP) (h24 : fb.len ≤ U24) (hfuel : fb.len ≤ fuel)
    (hpk : (udpPkts (udpLoop fuel fb pts now maxP succUdpOracle conn 0 m).2)[i]? =
      some pk) :
    (udpPkts (udpLoop fuel fb pts now maxP succUdpOracle conn 0 m).2).length =
      numFrags fb.len maxP ∧
    pk.off = i * maxP ∧
    (pk.marker = true ↔ i + 1 = numFrags fb.len maxP) := by
  obtain ⟨hlen, hidx⟩ := udpLoop_success_spec fb pts now maxP conn hP fuel 0 m (by omega)
  obtain ⟨hoffi, hmarki⟩ := hidx i pk hpk
  have hi : i < (udpPkts (udpLoop fuel fb pts now maxP succUdpOracle conn 0 m).2).length :=
    (List.getElem?_eq_some.mp hpk).1
  have hlen0 : (udpPkts (udpLoop fuel fb pts now maxP succUdpOracle conn 0 m).2).length =
      numFrags fb.len maxP := by simpa using hlen
  have hilt : i + 1 ≤ numFrags fb.len maxP := by
    rw [hlen0] at hi
    omega
  have hmul : i * maxP < fb.len := index_mul_lt i fb.len maxP hP hilt
  refine ⟨hlen0, ?_, ?_⟩
  · rw [hoffi]
    simp only [Nat.zero_add]
    exact Nat.mod_eq_of_lt (by omega)
  · rw [hmarki, hlen0]

/-- Witness for `fragmentation_matches_ceiling`: a 1300-byte frame with the
580-byte UDP payload ceiling yields three fragments; the last one (index 2,
offset 1160) carries the marker bit. -/
theorem fragmentation_matches_ceiling_witness :
    (0 < (580 : Nat) ∧ frame1300.len ≤ U24 ∧ frame1300.len ≤ 1300 ∧
     (udpPkts (udpLoop 1300 frame1300 6000 0 580 succUdpOracle true 0 mutInit).2)[2]? =
       some ⟨2, 6000, 1160, true, 140⟩) ∧
    ((udpPkts (udpLoop 1300 frame1300 6000 0 580 succUdpOracle true 0
        mutInit).2).length = numFrags frame1300.len 580 ∧
     (⟨2, 6000, 1160, true, 140⟩ : Pkt).off = 2 * 580 ∧
     ((⟨2, 6000, 1160, true, 140⟩ : Pkt).marker = true ↔
       2 + 1 = numFrags frame1300.len 580)) :=
  ⟨⟨by decide, by decide, by decide, by decide⟩,
   fragmentation_matches_ceiling frame1300 6000 0 580 1300 true mutInit 2
     ⟨2, 6000, 1160, true, 140⟩ (by decide) (by decide) (by decide) (by decide)⟩

end ESPRTSP
